import Mathlib

/-!
Verification development for the CIPC BizPortal automation service
(`main.py`).  The Python handlers and their pure string/date helpers are
shallowly embedded: Python strings become `String` (lists of characters),
the in-memory session dictionary becomes a partial map
`String → Option SessionRec`, and every browser-automation call is
replaced by an oracle field in an environment record describing what the
remote page did (whether a wait succeeded, which elements were present,
and the text they carried).  Handlers are pure functions from the
registry, the request and the environment to a response, the updated
registry, and a trace of page lifecycle actions.
-/

/-! ## Python string primitives -/

/-- Characters stripped by Python `str.strip()` (ASCII whitespace set). -/
def isPySpace (c : Char) : Bool :=
  c = ' ' || c = '\t' || c = '\n' || c = '\r' || c = '\x0b' || c = '\x0c'

/-- Python `str.strip()` on a character list: drop whitespace from both ends. -/
def pyStripChars (s : List Char) : List Char :=
  ((s.dropWhile isPySpace).reverse.dropWhile isPySpace).reverse

/-- Python `str.strip()`. -/
def pyStrip (s : String) : String := ⟨pyStripChars s.data⟩

/-- Whether `needle` is a leading segment of `hay`. -/
def isPrefOf : List Char → List Char → Bool
  | [], _ => true
  | _ :: _, [] => false
  | a :: as, b :: bs => a == b && isPrefOf as bs

/-- Whether `needle` occurs as a contiguous substring of `hay`. -/
def containsSub (needle : List Char) : List Char → Bool
  | [] => isPrefOf needle []
  | b :: bs => isPrefOf needle (b :: bs) || containsSub needle bs

/-- Python `needle in hay` substring test. -/
def strContains (hay needle : String) : Bool := containsSub needle.data hay.data

/-! ## `_map_status_from_src` (main.py lines 44-51) -/

/-- `_map_status_from_src`: map an icon image `src` string to an
enterprise status by substring tests, checked in a fixed order. -/
def map_status_from_src (src : String) : String :=
  if strContains src "verify_tick_sml.png" then "IN BUSINESS"
  else if strContains src "verify_orange_sml.png" then "IN DEREGISTRATION PROCESS"
  else if strContains src "verify_cross_sml.png" then "FINAL DEREGISTRATION"
  else "UNKNOWN"

/-- C1: a string containing exactly one of the three closed-set icon
identifiers is mapped to the documented status for that identifier
(IN BUSINESS for the tick icon, IN DEREGISTRATION PROCESS for the orange
icon, FINAL DEREGISTRATION for the cross icon), and a string containing
none of them is mapped to UNKNOWN.  Strings containing several
identifiers are resolved by the precedence order settled separately. -/
theorem C1_map_status_closed_set (s : String) :
    (strContains s "verify_tick_sml.png" = true →
      strContains s "verify_orange_sml.png" = false →
      strContains s "verify_cross_sml.png" = false →
      map_status_from_src s = "IN BUSINESS") ∧
    (strContains s "verify_orange_sml.png" = true →
      strContains s "verify_tick_sml.png" = false →
      strContains s "verify_cross_sml.png" = false →
      map_status_from_src s = "IN DEREGISTRATION PROCESS") ∧
    (strContains s "verify_cross_sml.png" = true →
      strContains s "verify_tick_sml.png" = false →
      strContains s "verify_orange_sml.png" = false →
      map_status_from_src s = "FINAL DEREGISTRATION") ∧
    (strContains s "verify_tick_sml.png" = false →
      strContains s "verify_orange_sml.png" = false →
      strContains s "verify_cross_sml.png" = false →
      map_status_from_src s = "UNKNOWN") := by
  refine ⟨?_, ?_, ?_, ?_⟩ <;> intro h1 h2 h3 <;> simp [map_status_from_src, h1, h2, h3]

/-- C1 witness: the three exact identifier strings and a plain string
evaluate to the four documented statuses. -/
theorem C1_map_status_closed_set_witness :
    map_status_from_src "verify_tick_sml.png" = "IN BUSINESS" ∧
    map_status_from_src "verify_orange_sml.png" = "IN DEREGISTRATION PROCESS" ∧
    map_status_from_src "verify_cross_sml.png" = "FINAL DEREGISTRATION" ∧
    map_status_from_src "images/other.png" = "UNKNOWN" :=
  ⟨(C1_map_status_closed_set "verify_tick_sml.png").1 (by decide) (by decide) (by decide),
   (C1_map_status_closed_set "verify_orange_sml.png").2.1 (by decide) (by decide) (by decide),
   (C1_map_status_closed_set "verify_cross_sml.png").2.2.1 (by decide) (by decide) (by decide),
   (C1_map_status_closed_set "images/other.png").2.2.2 (by decide) (by decide) (by decide)⟩

/-- C9: the substring tests run in the fixed order tick, orange, cross,
so any string containing the tick identifier maps to IN BUSINESS
regardless of the other identifiers it contains, and any string
containing the orange identifier but not the tick identifier maps to
IN DEREGISTRATION PROCESS. -/
theorem C9_map_status_precedence (s : String) :
    (strContains s "verify_tick_sml.png" = true →
      map_status_from_src s = "IN BUSINESS") ∧
    (strContains s "verify_orange_sml.png" = true →
      strContains s "verify_tick_sml.png" = false →
      map_status_from_src s = "IN DEREGISTRATION PROCESS") := by
  constructor
  · intro h1
    simp [map_status_from_src, h1]
  · intro h1 h2
    simp [map_status_from_src, h1, h2]

/-- C9 witness: a string containing all three identifiers maps to
IN BUSINESS, and one containing orange and cross but not tick maps to
IN DEREGISTRATION PROCESS. -/
theorem C9_map_status_precedence_witness :
    map_status_from_src "verify_tick_sml.png verify_orange_sml.png verify_cross_sml.png" =
      "IN BUSINESS" ∧
    map_status_from_src "verify_orange_sml.png verify_cross_sml.png" =
      "IN DEREGISTRATION PROCESS" :=
  ⟨(C9_map_status_precedence
      "verify_tick_sml.png verify_orange_sml.png verify_cross_sml.png").1 (by decide),
   (C9_map_status_precedence
      "verify_orange_sml.png verify_cross_sml.png").2 (by decide) (by decide)⟩

/-! ## Date normalization (main.py lines 259-268 and 347-356)

Both the registration-date field and the history-date column run the
same inline code: if the string contains a slash, split on slashes; when
that gives exactly three parts, rebuild `p0-p1.zfill(2)-p2.zfill(2)`;
otherwise keep the string unchanged. -/

/-- Python `str.zfill(width)`: left-pad with zeros up to `width`,
keeping a leading sign character in front of the padding. -/
def zfillChars (width : Nat) (s : List Char) : List Char :=
  if width ≤ s.length then s
  else
    match s with
    | [] => List.replicate width '0'
    | c :: cs =>
      if c = '+' ∨ c = '-' then c :: (List.replicate (width - s.length) '0' ++ cs)
      else List.replicate (width - s.length) '0' ++ s

/-- Python `s.split("/")` for a one-character separator. -/
def splitOnSlash (s : List Char) : List (List Char) :=
  match s with
  | [] => [[]]
  | c :: cs =>
    if c = '/' then [] :: splitOnSlash cs
    else
      let r := splitOnSlash cs
      (c :: r.headD []) :: r.tail

/-- The inline date-normalization step of `search_company`, on the
character list of the (already stripped) field text. -/
def normalize_date_chars (s : List Char) : List Char :=
  if '/' ∈ s then
    let parts := splitOnSlash s
    if parts.length = 3 then
      parts.getD 0 [] ++ '-' :: (zfillChars 2 (parts.getD 1 []) ++ '-' :: zfillChars 2 (parts.getD 2 []))
    else s
  else s

/-- The inline date-normalization step of `search_company`. -/
def normalize_date (s : String) : String := ⟨normalize_date_chars s.data⟩

theorem splitOnSlash_ne_nil (s : List Char) : splitOnSlash s ≠ [] := by
  cases s with
  | nil => simp [splitOnSlash]
  | cons c cs => by_cases hc : c = '/' <;> simp [splitOnSlash, hc]

theorem splitOnSlash_length (s : List Char) :
    (splitOnSlash s).length = s.count '/' + 1 := by
  induction s with
  | nil => simp [splitOnSlash]
  | cons c cs ih =>
    by_cases hc : c = '/'
    · subst hc
      simp [splitOnSlash, List.count_cons, ih]
    · have hne := splitOnSlash_ne_nil cs
      obtain ⟨p, ps, hps⟩ : ∃ p ps, splitOnSlash cs = p :: ps := by
        cases h : splitOnSlash cs with
        | nil => exact absurd h hne
        | cons p ps => exact ⟨p, ps, rfl⟩
      have := ih
      rw [hps] at this
      simp only [splitOnSlash, hc, if_false, List.count_cons, hps]
      simp_all [List.length_cons, beq_iff_eq, hc]

theorem splitOnSlash_no_slash (p : List Char) (hp : '/' ∉ p) :
    splitOnSlash p = [p] := by
  induction p with
  | nil => simp [splitOnSlash]
  | cons c cs ih =>
    have hc : c ≠ '/' := fun h => hp (h ▸ List.mem_cons_self c cs)
    have hcs : '/' ∉ cs := fun h => hp (List.mem_cons_of_mem _ h)
    simp [splitOnSlash, hc, ih hcs]

theorem splitOnSlash_append (p rest : List Char) (hp : '/' ∉ p) :
    splitOnSlash (p ++ '/' :: rest) = p :: splitOnSlash rest := by
  induction p with
  | nil => simp [splitOnSlash]
  | cons c cs ih =>
    have hc : c ≠ '/' := fun h => hp (h ▸ List.mem_cons_self c cs)
    have hcs : '/' ∉ cs := fun h => hp (List.mem_cons_of_mem _ h)
    simp [splitOnSlash, hc, ih hcs, splitOnSlash_ne_nil]

/-- C2: for a date string made of exactly three slash-separated parts
(equivalently, containing exactly two slashes), normalization replaces
the slashes with hyphens and zero-pads the second and third parts to
width two, leaving the first part unpadded; for any string that does not
contain exactly two slashes, normalization is the identity. -/
theorem C2_normalize_date (s : String) :
    (∀ p0 p1 p2 : List Char,
      s.data = p0 ++ '/' :: (p1 ++ '/' :: p2) →
      '/' ∉ p0 → '/' ∉ p1 → '/' ∉ p2 →
      normalize_date s =
        ⟨p0 ++ '-' :: (zfillChars 2 p1 ++ '-' :: zfillChars 2 p2)⟩) ∧
    (s.data.count '/' ≠ 2 → normalize_date s = s) := by
  obtain ⟨l⟩ := s
  constructor
  · intro p0 p1 p2 hs h0 h1 h2
    have hl : l = p0 ++ '/' :: (p1 ++ '/' :: p2) := hs
    have hmem : '/' ∈ l := by
      rw [hl]; exact List.mem_append_right _ (List.mem_cons_self _ _)
    have hsplit : splitOnSlash l = [p0, p1, p2] := by
      rw [hl, splitOnSlash_append p0 _ h0, splitOnSlash_append p1 _ h1,
        splitOnSlash_no_slash p2 h2]
    show String.mk (normalize_date_chars l) = _
    rw [normalize_date_chars, if_pos hmem]
    simp [hsplit]
  · intro hcnt
    have hcnt' : l.count '/' ≠ 2 := hcnt
    show String.mk (normalize_date_chars l) = String.mk l
    by_cases hmem : '/' ∈ l
    · have hlen : (splitOnSlash l).length = l.count '/' + 1 := splitOnSlash_length l
      have hne3 : (splitOnSlash l).length ≠ 3 := by omega
      rw [normalize_date_chars, if_pos hmem]
      simp [hne3]
    · rw [normalize_date_chars, if_neg hmem]

/-- C2 witness: a concrete `Y/M/D` string is reformatted with padding,
and strings with one or three slashes pass through unchanged. -/
theorem C2_normalize_date_witness :
    normalize_date "2020/1/5" = "2020-01-05" ∧
    normalize_date "01/05" = "01/05" ∧
    normalize_date "2020/1/5/9" = "2020/1/5/9" :=
  ⟨((C2_normalize_date "2020/1/5").1 "2020".data "1".data "5".data
      (by decide) (by decide) (by decide) (by decide)).trans (by decide),
   (C2_normalize_date "01/05").2 (by decide),
   (C2_normalize_date "2020/1/5/9").2 (by decide)⟩

/-! ## Sentinel field normalization (main.py lines 254-256 and 425-434)

Each of these fields reads an element's text (absent element giving a
null), strips it, then maps a sentinel value to null.  The raw argument
is the element's text content, `none` when the element is absent. -/

/-- `complianceNotice` field: strip, then the sentinel `NONE` becomes null. -/
def complianceNoticeOf (raw : Option String) : Option String :=
  match raw.map pyStrip with
  | some t => if t = "NONE" then none else some t
  | none => none

/-- `uifRegNumber` field: strip, then the sentinel `NOT AVAILABLE` becomes null. -/
def uifRegNumberOf (raw : Option String) : Option String :=
  match raw.map pyStrip with
  | some t => if t = "NOT AVAILABLE" then none else some t
  | none => none

/-- `compensationFundRegNum` field: strip, then the sentinel
`NOT AVAILABLE` becomes null. -/
def compensationFundRegNumOf (raw : Option String) : Option String :=
  match raw.map pyStrip with
  | some t => if t = "NOT AVAILABLE" then none else some t
  | none => none

/-- C6: a compliance-notice value whose trimmed form is the sentinel
`NONE` is normalized to null, and UIF / compensation-fund values whose
trimmed form is the sentinel `NOT AVAILABLE` are normalized to null;
every other value is returned trimmed of surrounding whitespace. -/
theorem C6_sentinel_normalization (s : String) :
    (pyStrip s = "NONE" → complianceNoticeOf (some s) = none) ∧
    (pyStrip s ≠ "NONE" → complianceNoticeOf (some s) = some (pyStrip s)) ∧
    (pyStrip s = "NOT AVAILABLE" →
      uifRegNumberOf (some s) = none ∧ compensationFundRegNumOf (some s) = none) ∧
    (pyStrip s ≠ "NOT AVAILABLE" →
      uifRegNumberOf (some s) = some (pyStrip s) ∧
      compensationFundRegNumOf (some s) = some (pyStrip s)) := by
  refine ⟨?_, ?_, ?_, ?_⟩ <;> intro h <;>
    simp [complianceNoticeOf, uifRegNumberOf, compensationFundRegNumOf, h]

/-- C6 witness: concrete sentinel and non-sentinel values. -/
theorem C6_sentinel_normalization_witness :
    complianceNoticeOf (some " NONE ") = none ∧
    complianceNoticeOf (some " overdue ") = some "overdue" ∧
    uifRegNumberOf (some " NOT AVAILABLE ") = none ∧
    compensationFundRegNumOf (some " CF123 ") = some "CF123" :=
  ⟨(C6_sentinel_normalization " NONE ").1 (by decide),
   ((C6_sentinel_normalization " overdue ").2.1 (by decide)).trans (by decide),
   ((C6_sentinel_normalization " NOT AVAILABLE ").2.2.1 (by decide)).1,
   ((C6_sentinel_normalization " CF123 ").2.2.2 (by decide)).2.trans (by decide)⟩

/-! ## Annual-returns extraction (main.py lines 309-331) -/

/-- Python `str.isdigit()` restricted to ASCII digits, as used on the
stripped year cell. -/
def pyIsDigit (s : String) : Bool := !s.data.isEmpty && s.data.all Char.isDigit

/-- Decimal value of a digit string, the effect of Python `int` on a
string that passed `isdigit`. -/
def toNatDigits (l : List Char) : Nat :=
  l.foldl (fun a c => 10 * a + (c.toNat - 48)) 0

/-- A year cell: parsed to an integer when the text is all digits,
otherwise kept as the text. -/
inductive YearVal where
  | num (n : Nat)
  | text (s : String)
deriving DecidableEq

/-- `int(year_text) if year_text.isdigit() else year_text`. -/
def parseYear (s : String) : YearVal :=
  if pyIsDigit s then .num (toNatDigits s.data) else .text s

/-- One row of the `filedAnnualReturns` list. -/
structure FiledAR where
  year : YearVal
  amountPaid : String
  dateFiled : String
deriving DecidableEq

/-- One row of the `outstandingAnnualReturns` list. -/
structure OutstandingAR where
  year : YearVal
  month : String
  nonComplianceDate : String
deriving DecidableEq

/-- Filed-annual-returns table scrape: skip the header row, keep rows
with at least three cells whose first cell does not contain the
`No annual returns` sentinel. -/
def filedOfRows (rows : List (List String)) : List FiledAR :=
  (rows.drop 1).filterMap fun cells =>
    match cells with
    | c0 :: c1 :: c2 :: _ =>
      if strContains c0 "No annual returns" then none
      else some ⟨parseYear (pyStrip c0), pyStrip c1, pyStrip c2⟩
    | _ => none

/-- Outstanding-annual-returns table scrape: skip the header row, keep
rows with at least three cells. -/
def outstandingOfRows (rows : List (List String)) : List OutstandingAR :=
  (rows.drop 1).filterMap fun cells =>
    match cells with
    | c0 :: c1 :: c2 :: _ => some ⟨parseYear (pyStrip c0), pyStrip c1, pyStrip c2⟩
    | _ => none

/-- C7: filed-table data rows whose first cell contains the
`No annual returns` sentinel are excluded (a table whose data rows all
carry the sentinel yields no filed entries, and every produced filed
entry comes from a sentinel-free row); each produced filed or
outstanding entry takes its fields from the row's trimmed cells; and the
first cell's trimmed text is parsed to an integer exactly when it is all
digits, and kept as text otherwise. -/
theorem C7_annual_returns (rows orows : List (List String)) :
    ((∀ c0 cs, c0 :: cs ∈ rows.drop 1 → strContains c0 "No annual returns" = true) →
      filedOfRows rows = []) ∧
    (∀ e ∈ filedOfRows rows, ∃ c0 c1 c2 rest,
      (c0 :: c1 :: c2 :: rest) ∈ rows.drop 1 ∧
      strContains c0 "No annual returns" = false ∧
      e.year = parseYear (pyStrip c0) ∧
      e.amountPaid = pyStrip c1 ∧ e.dateFiled = pyStrip c2) ∧
    (∀ e ∈ outstandingOfRows orows, ∃ c0 c1 c2 rest,
      (c0 :: c1 :: c2 :: rest) ∈ orows.drop 1 ∧
      e.year = parseYear (pyStrip c0) ∧
      e.month = pyStrip c1 ∧ e.nonComplianceDate = pyStrip c2) ∧
    (∀ s : String,
      (pyIsDigit s = true → parseYear s = .num (toNatDigits s.data)) ∧
      (pyIsDigit s = false → parseYear s = .text s)) := by
  refine ⟨?_, ?_, ?_, ?_⟩
  · intro hall
    rw [filedOfRows, List.filterMap_eq_nil_iff]
    intro cells hmem
    cases cells with
    | nil => rfl
    | cons c0 rest =>
      cases rest with
      | nil => rfl
      | cons c1 rest2 =>
        cases rest2 with
        | nil => rfl
        | cons c2 rest3 =>
          simp [hall c0 (c1 :: c2 :: rest3) hmem]
  · intro e he
    rw [filedOfRows, List.mem_filterMap] at he
    obtain ⟨cells, hmem, hf⟩ := he
    cases cells with
    | nil => simp at hf
    | cons c0 rest =>
      cases rest with
      | nil => simp at hf
      | cons c1 rest2 =>
        cases rest2 with
        | nil => simp at hf
        | cons c2 rest3 =>
          by_cases hs : strContains c0 "No annual returns" = true
          · simp [hs] at hf
          · rw [Bool.not_eq_true] at hs
            simp only [hs, if_false, Option.some.injEq, Bool.false_eq_true] at hf
            exact ⟨c0, c1, c2, rest3, hmem, hs, by rw [← hf], by rw [← hf], by rw [← hf]⟩
  · intro e he
    rw [outstandingOfRows, List.mem_filterMap] at he
    obtain ⟨cells, hmem, hf⟩ := he
    cases cells with
    | nil => simp at hf
    | cons c0 rest =>
      cases rest with
      | nil => simp at hf
      | cons c1 rest2 =>
        cases rest2 with
        | nil => simp at hf
        | cons c2 rest3 =>
          simp only [Option.some.injEq] at hf
          exact ⟨c0, c1, c2, rest3, hmem, by rw [← hf], by rw [← hf], by rw [← hf]⟩
  · intro s
    constructor <;> intro h <;> simp [parseYear, h]

/-- C7 witness: a filed table whose only data row carries the sentinel
yields no entries, and concrete year cells parse to an integer or stay
text. -/
theorem C7_annual_returns_witness :
    filedOfRows [["Year", "Amount Paid", "Date Filed"],
      ["No annual returns found", "", ""]] = [] ∧
    parseYear "2020" = YearVal.num 2020 ∧
    parseYear "n/a" = YearVal.text "n/a" := by
  refine ⟨?_, ?_, ?_⟩
  · refine (C7_annual_returns [["Year", "Amount Paid", "Date Filed"],
      ["No annual returns found", "", ""]] []).1 ?_
    intro c0 cs hmem
    simp only [List.drop, List.mem_singleton, List.cons.injEq] at hmem
    rw [hmem.1]
    decide
  · exact (((C7_annual_returns [] []).2.2.2 "2020").1 (by decide)).trans (by decide)
  · exact ((C7_annual_returns [] []).2.2.2 "n/a").2 (by decide)

/-! ## Session registry and handler models

The module-level dictionary `_sessions` is modelled as a partial map
from tokens to session records.  Each handler is a pure function of the
registry, the request and an environment of browser oracles; it returns
the response, the registry after the call, and (for `/connect` and
`/search`) a trace of the page lifecycle actions it performed. -/

/-- One `_sessions` entry: opaque handles for the playwright driver, the
browser, the context, plus the creation time. -/
structure SessionRec where
  pw : Nat
  browser : Nat
  context : Nat
  created : Nat
deriving DecidableEq

/-- The `_sessions` dictionary: token to session record. -/
def Registry : Type := String → Option SessionRec

/-- Page lifecycle actions recorded by the handler models: a tab was
opened, a navigation was performed, a tab was closed. -/
inductive PageAct where
  | opened
  | navigated
  | closed
deriving DecidableEq

/-! ### Company data shapes returned by `/search` -/

/-- The `company_details` record. -/
structure CompanyDetails where
  enterpriseNumber : Option String
  enterpriseName : Option String
  enterpriseType : Option String
  enterpriseStatus : Option String
  complianceNotice : Option String
  registrationDate : Option String
  physicalAddress : Option String
  postalAddress : Option String
deriving DecidableEq

/-- One directors-table row. -/
structure Director where
  idNumber : String
  names : String
  surname : String
  dirType : String
  status : String
deriving DecidableEq

/-- The `annual_returns` record. -/
structure AnnualReturns where
  filedAnnualReturns : List FiledAR
  outstandingAnnualReturns : List OutstandingAR
deriving DecidableEq

/-- One enterprise-history row. -/
structure HistoryEntry where
  date : String
  details : String
deriving DecidableEq

/-- The populated part of `compliance_information`; the remaining
sub-records of the source's template are never assigned and stay null. -/
structure ComplianceInfo where
  regulatorRegistrationNumber : Option String
  organisationType : Option String
deriving DecidableEq

/-- The `other_details` record. -/
structure OtherDetails where
  sarsTaxNumber : Option String
  uifRegNumber : Option String
  compensationFundRegNum : Option String
deriving DecidableEq

/-- The `data` object of a successful `/search` response. -/
structure CompanyData where
  company_details : CompanyDetails
  directors : List Director
  annual_returns : AnnualReturns
  history : List HistoryEntry
  compliance_information : ComplianceInfo
  other_details : OtherDetails
deriving DecidableEq

/-- What the results page offered to the extraction code: for each
label, `none` when `query_selector` found nothing and otherwise the
element's text; for each table, the rows' cell texts; for each tab, its
presence.  The timeout on the enabled-input wait is tolerated by the
source (only logged), so it has no field here. -/
structure DetailEnv where
  lblEntNo : Option String
  lblEntName : Option String
  lblEntType : Option String
  lblEntStatus : Option String
  lblNonComply : Option String
  lblRegDate : Option String
  lblPhysAddress : Option String
  lblPostalAddress : Option String
  directorsTab : Bool
  directorRows : List (List String)
  arTab : Bool
  filedRows : List (List String)
  outstandingRows : List (List String)
  historyTab : Bool
  historyRows : List (List String)
  irTab : Bool
  irNotRegisteredPanel : Option (Option String)
  irRegNumber : Option String
  irOrgType : Option String
  otherTab : Bool
  lblTax : Option String
  lblUIF : Option String
  lblCF : Option String
deriving DecidableEq

/-- Registration-date field: strip, then normalize the slash format. -/
def regDateField (raw : Option String) : Option String :=
  match raw.map pyStrip with
  | some d => some (normalize_date d)
  | none => none

/-- Address fields: strip, then join lines with a comma; an empty
stripped address is falsy in the source's conditional and becomes null. -/
def addrField (raw : Option String) : Option String :=
  match raw.map pyStrip with
  | some a => if a = "" then none else some (a.replace "\n" ", ")
  | none => none

/-- The `company_details` extraction (main.py lines 239-277). -/
def mkCompanyDetails (d : DetailEnv) : CompanyDetails :=
  ⟨d.lblEntNo.map pyStrip, d.lblEntName.map pyStrip, d.lblEntType.map pyStrip,
   d.lblEntStatus.map pyStrip, complianceNoticeOf d.lblNonComply,
   regDateField d.lblRegDate, addrField d.lblPhysAddress, addrField d.lblPostalAddress⟩

/-- Directors extraction (main.py lines 279-297): when the tab label is
present, rows after the header with at least five cells. -/
def directorsOfRows (tab : Bool) (rows : List (List String)) : List Director :=
  if tab then
    (rows.drop 1).filterMap fun cells =>
      match cells with
      | c0 :: c1 :: c2 :: c3 :: c4 :: _ =>
        some ⟨pyStrip c0, pyStrip c1, pyStrip c2, pyStrip c3, pyStrip c4⟩
      | _ => none
  else []

/-- Annual-returns extraction (main.py lines 301-331). -/
def annualReturnsOf (tab : Bool) (frows orows : List (List String)) : AnnualReturns :=
  if tab then ⟨filedOfRows frows, outstandingOfRows orows⟩ else ⟨[], []⟩

/-- History extraction (main.py lines 335-363): rows after the header
with at least two cells, the date column normalized. -/
def historyOfRows (tab : Bool) (rows : List (List String)) : List HistoryEntry :=
  if tab then
    (rows.drop 1).filterMap fun cells =>
      match cells with
      | c0 :: c1 :: _ => some ⟨normalize_date (pyStrip c0), pyStrip c1⟩
      | _ => none
  else []

/-- Information-regulator extraction (main.py lines 365-415): the entity
counts as registered when the not-registered panel is absent, or present
with a style attribute containing `display: none`; only then are the two
optional labels read. -/
def complianceOf (tab : Bool) (notRegPanel : Option (Option String))
    (regNum orgType : Option String) : ComplianceInfo :=
  if tab then
    let registered :=
      match notRegPanel with
      | none => true
      | some style =>
        match style with
        | some st => strContains st "display: none"
        | none => false
    if registered then ⟨regNum.map pyStrip, orgType.map pyStrip⟩ else ⟨none, none⟩
  else ⟨none, none⟩

/-- Other-details extraction (main.py lines 417-436). -/
def otherDetailsOf (tab : Bool) (tax uif cf : Option String) : OtherDetails :=
  if tab then ⟨tax.map pyStrip, uifRegNumberOf uif, compensationFundRegNumOf cf⟩
  else ⟨none, none, none⟩

/-- The whole success-path extraction of `/search`. -/
def extractDetails (d : DetailEnv) : CompanyData :=
  ⟨mkCompanyDetails d,
   directorsOfRows d.directorsTab d.directorRows,
   annualReturnsOf d.arTab d.filedRows d.outstandingRows,
   historyOfRows d.historyTab d.historyRows,
   complianceOf d.irTab d.irNotRegisteredPanel d.irRegNumber d.irOrgType,
   otherDetailsOf d.otherTab d.lblTax d.lblUIF d.lblCF⟩

/-! ### `/search` handler (main.py lines 161-494) -/

/-- A `/search` request body. -/
structure SearchRequest where
  session_token : String
  query : String
deriving DecidableEq

/-- The response of `/search`: an `HTTPException`, the business-level
failure payload `{success: false, error, message}`, the no-results
payload `{success: true, data: [], message}`, or the full success
payload `{success: true, data}`. -/
inductive SearchResult where
  | httpError (status : Nat) (detail : String)
  | businessError (error : String) (message : String)
  | noResults (message : String)
  | found (data : CompanyData)
deriving DecidableEq

/-- Oracles for the `/search` browser steps, in source order: the
navigation, the search-box wait, the two element lookups, the results
waits of step 6 (a `query_selector` for the panel, a wait used when it
was absent, and the key-label wait), the optional error-message element
consulted on timeout, and the results-page content. -/
structure SearchEnv where
  gotoOk : Bool
  searchBoxOk : Bool
  searchInputFound : Bool
  searchButtonFound : Bool
  resultsPanelFound : Bool
  resultsPanelWaitOk : Bool
  entNoWaitOk : Bool
  errorMsg : Option String
  detail : DetailEnv
deriving DecidableEq

/-- `search_company`: validate the token, then drive the browser steps;
every branch after a successful lookup opens a tab, navigates, and
closes the tab before answering. -/
def search_company (sessions : Registry) (req : SearchRequest) (env : SearchEnv) :
    SearchResult × List PageAct :=
  match sessions req.session_token with
  | none => (.httpError 401 "Session expired or invalid", [])
  | some _ =>
    if env.gotoOk = false then
      (.httpError 500 "Search operation timed out", [.opened, .navigated, .closed])
    else if env.searchBoxOk = false then
      (.httpError 500 "Search operation timed out", [.opened, .navigated, .closed])
    else if env.searchInputFound = false then
      (.httpError 400 "Could not find search input field", [.opened, .navigated, .closed])
    else if env.searchButtonFound = false then
      (.httpError 400 "Could not find search button", [.opened, .navigated, .closed])
    else if ((env.resultsPanelFound || env.resultsPanelWaitOk) && env.entNoWaitOk) = false then
      match env.errorMsg with
      | some t =>
        (.businessError (pyStrip t) ("Search failed: " ++ pyStrip t),
          [.opened, .navigated, .closed])
      | none =>
        (.noResults ("No results found for enterprise number: " ++ req.query),
          [.opened, .navigated, .closed])
    else
      (.found (extractDetails env.detail), [.opened, .navigated, .closed])

/-! ### `/connect` handler (main.py lines 57-158) -/

/-- One row of the enterprises table on the profile page: the first two
cells' text contents and the two status icons' `src` attributes. -/
structure ConnectRow where
  no : Option String
  name : Option String
  srcStatus : String
  srcAr : String
deriving DecidableEq

/-- One entry of the `enterprises` list in the `/connect` response. -/
structure Enterprise where
  enterprise_number : String
  enterprise_name : String
  status : String
  ar_status : String
deriving DecidableEq

/-- Oracles for the `/connect` browser steps: fresh handle ids and clock
for the would-be session entry, the navigation and login-panel waits,
the error-banner lookup after submit (`some txt` when the banner element
exists, `txt` its text content), the message of an automation failure,
the post-login waits, and the scraped company-list rows. -/
structure ConnectEnv where
  pwId : Nat
  browserId : Nat
  contextId : Nat
  now : Nat
  gotoOk : Bool
  loginPanelOk : Bool
  errorBanner : Option (Option String)
  navErrMsg : String
  urlWaitOk : Bool
  companyListOk : Bool
  rows : List ConnectRow
deriving DecidableEq

/-- Resource teardown actions recorded by the `/connect` model. -/
inductive ResAct where
  | pageClosed
  | browserClosed
  | pwStopped
deriving DecidableEq

/-- The response of `/connect`. -/
inductive ConnectResult where
  | ok (session_token : String) (enterprises : List Enterprise)
  | httpError (status : Nat) (detail : String)
deriving DecidableEq

/-- Enterprise-list scraping (main.py lines 100-113): rows after the
header, cell texts guarded with `or ""` then stripped, icon sources
mapped through `_map_status_from_src`. -/
def scrapeEnterprises (rows : List ConnectRow) : List Enterprise :=
  (rows.drop 1).map fun r =>
    ⟨pyStrip (r.no.getD ""), pyStrip (r.name.getD ""),
     map_status_from_src r.srcStatus, map_status_from_src r.srcAr⟩

/-- `connect`: drive the login flow; on the banner path raise 401 with
the trimmed banner text after closing page, browser and driver; on other
failures raise 500 after the same teardown; on success close only the
login tab and register the session under the fresh token. -/
def connect (sessions : Registry) (token : String) (env : ConnectEnv) :
    ConnectResult × Registry × List ResAct :=
  if env.gotoOk = false then
    (.httpError 500 ("Login/navigation error: " ++ env.navErrMsg), sessions,
      [.pageClosed, .browserClosed, .pwStopped])
  else if env.loginPanelOk = false then
    (.httpError 500 ("Login/navigation error: " ++ env.navErrMsg), sessions,
      [.pageClosed, .browserClosed, .pwStopped])
  else
    match env.errorBanner with
    | some txt =>
      (.httpError 401 (pyStrip (txt.getD "")), sessions,
        [.pageClosed, .browserClosed, .pwStopped])
    | none =>
      if env.urlWaitOk = false then
        (.httpError 500 ("Login/navigation error: " ++ env.navErrMsg), sessions,
          [.pageClosed, .browserClosed, .pwStopped])
      else if env.companyListOk = false then
        (.httpError 500 ("Login/navigation error: " ++ env.navErrMsg), sessions,
          [.pageClosed, .browserClosed, .pwStopped])
      else
        (.ok token (scrapeEnterprises env.rows),
          fun t => if t = token then some ⟨env.pwId, env.browserId, env.contextId, env.now⟩
                   else sessions t,
          [.pageClosed])

/-! ### `/disconnect` handler (main.py lines 498-511) -/

/-- Oracles for the `/disconnect` teardown calls: `some msg` when the
corresponding call raises with that message. -/
structure DisconnectEnv where
  browserCloseErr : Option String
  pwStopErr : Option String
deriving DecidableEq

/-- The `{success, message}` payload of `/disconnect`. -/
structure DisconnectResponse where
  success : Bool
  message : String
deriving DecidableEq

/-- `disconnect`: missing token answers `success:false` and leaves the
registry alone; a raising teardown call answers `success:false` before
the `del` runs; only a clean teardown removes the entry. -/
def disconnect (sessions : Registry) (token : String) (env : DisconnectEnv) :
    DisconnectResponse × Registry :=
  match sessions token with
  | none => (⟨false, "Session not found"⟩, sessions)
  | some _ =>
    match env.browserCloseErr with
    | some e => (⟨false, "Error closing session: " ++ e⟩, sessions)
    | none =>
      match env.pwStopErr with
      | some e => (⟨false, "Error closing session: " ++ e⟩, sessions)
      | none => (⟨true, "Session closed"⟩, fun t => if t = token then none else sessions t)

/-! ## Handler claims -/

/-- C3: a `/search` request whose session token is not a key of the
registry fails with HTTP 401 and performs no browser-automation step:
the action trace is empty, so no page is opened and no navigation
occurs. -/
theorem C3_search_unknown_token_401 (sessions : Registry) (req : SearchRequest)
    (env : SearchEnv) (h : sessions req.session_token = none) :
    search_company sessions req env =
      (.httpError 401 "Session expired or invalid", []) := by
  simp [search_company, h]

/-- A concrete results-page content for witnesses. -/
def sampleDetail : DetailEnv :=
  ⟨some "2020/123456/07", some "ACME", some "Private Company", some "In Business",
   some "NONE", some "2020/1/5", none, none,
   false, [], false, [], [], false, [], false, none, none, none, false,
   none, none, none⟩

/-- A concrete `/search` environment for witnesses. -/
def sampleSearchEnv : SearchEnv :=
  ⟨true, true, true, true, true, true, true, none, sampleDetail⟩

/-- C3 witness: the empty registry rejects a concrete request with 401
and an empty action trace. -/
theorem C3_search_unknown_token_401_witness :
    search_company (fun _ => none) ⟨"deadbeef", "2020/123456/07"⟩ sampleSearchEnv =
      (.httpError 401 "Session expired or invalid", []) :=
  C3_search_unknown_token_401 (fun _ => none) ⟨"deadbeef", "2020/123456/07"⟩
    sampleSearchEnv rfl

/-- C4: when the inline error banner is present after submit, `/connect`
returns HTTP 401 whose detail is the banner's text trimmed of
surrounding whitespace, the registry is returned unchanged (no session
is registered), and the trace shows the page, the browser and the
playwright driver all torn down before the error is raised. -/
theorem C4_connect_banner_401 (sessions : Registry) (token : String)
    (env : ConnectEnv) (txt : Option String)
    (h1 : env.gotoOk = true) (h2 : env.loginPanelOk = true)
    (h3 : env.errorBanner = some txt) :
    connect sessions token env =
      (.httpError 401 (pyStrip (txt.getD "")), sessions,
        [.pageClosed, .browserClosed, .pwStopped]) := by
  simp [connect, h1, h2, h3]

/-- A concrete `/connect` environment with a login-error banner. -/
def sampleBannerEnv : ConnectEnv :=
  ⟨0, 1, 2, 3, true, true, some (some " Invalid ID Number or Password. "), "",
   true, true, []⟩

/-- C4 witness: a concrete banner-producing login returns 401 with the
trimmed banner text, keeps the registry empty, and closes everything. -/
theorem C4_connect_banner_401_witness :
    connect (fun _ => none) "tok-1" sampleBannerEnv =
      (.httpError 401 "Invalid ID Number or Password.", fun _ => none,
        [.pageClosed, .browserClosed, .pwStopped]) :=
  (C4_connect_banner_401 (fun _ => none) "tok-1" sampleBannerEnv
    (some " Invalid ID Number or Password. ") rfl rfl rfl).trans (by rfl)

/-- C5: on a valid token, when the step-6 results waits time out, the
handler answers HTTP 200, not an HTTP error: with no error-message
element it returns `success: true` with an empty data list and the
no-results message; with an error-message element it returns
`success: false` carrying that element's trimmed text. -/
theorem C5_search_timeout_no_results (sessions : Registry) (req : SearchRequest)
    (env : SearchEnv) (s : SessionRec)
    (hs : sessions req.session_token = some s)
    (h1 : env.gotoOk = true) (h2 : env.searchBoxOk = true)
    (h3 : env.searchInputFound = true) (h4 : env.searchButtonFound = true)
    (h5 : ((env.resultsPanelFound || env.resultsPanelWaitOk) && env.entNoWaitOk) = false) :
    (env.errorMsg = none →
      search_company sessions req env =
        (.noResults ("No results found for enterprise number: " ++ req.query),
          [.opened, .navigated, .closed])) ∧
    (∀ t, env.errorMsg = some t →
      search_company sessions req env =
        (.businessError (pyStrip t) ("Search failed: " ++ pyStrip t),
          [.opened, .navigated, .closed])) := by
  constructor
  · intro hmsg
    simp [search_company, hs, h1, h2, h3, h4, h5, hmsg]
  · intro t hmsg
    simp [search_company, hs, h1, h2, h3, h4, h5, hmsg]

/-- A registry holding one session under every token, for witnesses. -/
def sampleRegistry : Registry := fun _ => some ⟨0, 1, 2, 3⟩

/-- A `/search` environment whose key-label wait times out and whose
page carries no error-message element. -/
def sampleTimeoutEnv : SearchEnv :=
  ⟨true, true, true, true, true, true, false, none, sampleDetail⟩

/-- C5 witness: a concrete timed-out search on a valid token returns the
no-results payload with HTTP 200 semantics. -/
theorem C5_search_timeout_no_results_witness :
    search_company sampleRegistry ⟨"tok-1", "2020/123456/07"⟩ sampleTimeoutEnv =
      (.noResults "No results found for enterprise number: 2020/123456/07",
        [.opened, .navigated, .closed]) :=
  ((C5_search_timeout_no_results sampleRegistry ⟨"tok-1", "2020/123456/07"⟩
    sampleTimeoutEnv ⟨0, 1, 2, 3⟩ rfl rfl rfl rfl rfl rfl).1 rfl).trans (by rfl)

/-- C8: `/disconnect` on a token absent from the registry returns the
`success: false` payload without raising and leaves the registry
unchanged; and after a first `/disconnect` whose teardown calls both
succeed, a second `/disconnect` on the same token again answers
`success: false` with the not-found message, whatever the token's
initial state. -/
theorem C8_disconnect_idempotent (sessions : Registry) (token : String)
    (env1 env2 : DisconnectEnv) :
    (sessions token = none →
      disconnect sessions token env1 = (⟨false, "Session not found"⟩, sessions)) ∧
    (env1.browserCloseErr = none → env1.pwStopErr = none →
      (disconnect (disconnect sessions token env1).2 token env2).1 =
        ⟨false, "Session not found"⟩) := by
  constructor
  · intro h
    simp [disconnect, h]
  · intro hb hp
    cases hsess : sessions token with
    | none => simp [disconnect, hsess]
    | some s => simp [disconnect, hsess, hb, hp]

/-- C8 witness: two successive `/disconnect` calls on a registered token
end with the not-found payload, and a call on an unknown token answers
`success: false` directly. -/
theorem C8_disconnect_idempotent_witness :
    (disconnect (disconnect sampleRegistry "tok-1" ⟨none, none⟩).2 "tok-1"
        ⟨none, none⟩).1 = ⟨false, "Session not found"⟩ ∧
    disconnect (fun _ => none) "tok-1" ⟨none, none⟩ =
      (⟨false, "Session not found"⟩, fun _ => none) :=
  ⟨(C8_disconnect_idempotent sampleRegistry "tok-1" ⟨none, none⟩ ⟨none, none⟩).2 rfl rfl,
   (C8_disconnect_idempotent (fun _ => none) "tok-1" ⟨none, none⟩ ⟨none, none⟩).1 rfl⟩

/-- C10: when a teardown call of `/disconnect` raises, the handler
answers `success: false`, the registry is unchanged so the session entry
remains registered, and a subsequent `/search` with that token passes
the registry lookup: its trace starts by opening a page instead of the
empty trace of the 401 rejection. -/
theorem C10_disconnect_failure_keeps_session (sessions : Registry) (token : String)
    (env : DisconnectEnv) (s : SessionRec)
    (hs : sessions token = some s)
    (herr : env.browserCloseErr ≠ none ∨ env.pwStopErr ≠ none) :
    (disconnect sessions token env).1.success = false ∧
    (disconnect sessions token env).2 = sessions ∧
    ∀ (q : String) (senv : SearchEnv),
      ((search_company (disconnect sessions token env).2 ⟨token, q⟩ senv).2).head? =
        some PageAct.opened := by
  have hmain : (disconnect sessions token env).1.success = false ∧
      (disconnect sessions token env).2 = sessions := by
    cases hb : env.browserCloseErr with
    | some e => simp [disconnect, hs, hb]
    | none =>
      cases hp : env.pwStopErr with
      | some e => simp [disconnect, hs, hb, hp]
      | none =>
        rcases herr with h | h
        · exact absurd hb h
        · exact absurd hp h
  refine ⟨hmain.1, hmain.2, ?_⟩
  intro q senv
  rw [hmain.2]
  simp only [search_company, hs]
  repeat' split
  all_goals rfl

/-- C10 witness: a failing browser close on a registered token leaves
the payload at `success: false` and lets a follow-up `/search` open a
page. -/
theorem C10_disconnect_failure_keeps_session_witness :
    (disconnect sampleRegistry "tok-1" ⟨some "target closed", none⟩).1.success = false ∧
    ((search_company (disconnect sampleRegistry "tok-1"
        ⟨some "target closed", none⟩).2 ⟨"tok-1", "q"⟩ sampleSearchEnv).2).head? =
      some PageAct.opened :=
  ⟨(C10_disconnect_failure_keeps_session sampleRegistry "tok-1"
      ⟨some "target closed", none⟩ ⟨0, 1, 2, 3⟩ rfl (Or.inl (by simp))).1,
   (C10_disconnect_failure_keeps_session sampleRegistry "tok-1"
      ⟨some "target closed", none⟩ ⟨0, 1, 2, 3⟩ rfl (Or.inl (by simp))).2.2
      "q" sampleSearchEnv⟩
